import Mathlib

/-!
Verification of the Aggravation game core (Rust sources in src/) against its
natural-language specification. Rust f32 power values are embedded as rationals;
usize values as naturals with explicit truncated subtraction where the source
subtracts; fallible or panicking paths return Option. Definitions follow the
source files named in each doc comment.
-/

namespace Aggravation

/-- Players, from components.rs usage (the enum order matches power.rs). -/
inductive Player where
  | red
  | green
  | blue
  | yellow
deriving DecidableEq, Repr

/-- Constants from src/constants.rs. -/
def START_INDEX : Nat := 0

def CENTER_INDEX : Nat := 53

def FIRST_HOME_INDEX : Nat := 48

def LAST_HOME_INDEX : Nat := 52

def CENTER_ENTRANCE_INDEXES : List Nat := [5, 17, 29]

def CENTER_EXIT_INDEX : Nat := 41

/-- The 54 physical board cell coordinates, from src/constants.rs BOARD. -/
def BOARD : List (Int × Int) :=
  [ (-6, 1), (-5, 1), (-4, 1), (-3, 1), (-2, 1),
    (-1, 1),
    (-1, 2), (-1, 3), (-1, 4), (-1, 5), (-1, 6),
    (0, 6),
    (1, 6), (1, 5), (1, 4), (1, 3), (1, 2),
    (1, 1),
    (2, 1), (3, 1), (4, 1), (5, 1), (6, 1),
    (6, 0),
    (6, -1), (5, -1), (4, -1), (3, -1), (2, -1),
    (1, -1),
    (1, -2), (1, -3), (1, -4), (1, -5), (1, -6),
    (0, -6),
    (-1, -6), (-1, -5), (-1, -4), (-1, -3), (-1, -2),
    (-1, -1),
    (-2, -1), (-3, -1), (-4, -1), (-5, -1), (-6, -1),
    (-6, 0),
    (-5, 0), (-4, 0), (-3, 0), (-2, 0), (-1, 0),
    (0, 0) ]

/-- MAX_POWER from src/power.rs. -/
def MAX_POWER : ℚ := 10

/-- MAX_POWER_UPS from src/power.rs. -/
def MAX_POWER_UPS : Nat := 3

/-- PowerBar component from src/power.rs (power is f32, embedded as a rational). -/
structure PowerBar where
  power : ℚ
  power_up_count : Nat
  origin : ℚ
deriving DecidableEq, Repr

/-- PowerBar::update from src/power.rs, returning the updated bar and the
boolean the method returns (true when a power-up is awarded). -/
def powerBarUpdate (b : PowerBar) (delta : ℚ) : PowerBar × Bool :=
  let new_power := max (b.power + delta) 0
  if new_power ≥ MAX_POWER then
    match b.power_up_count with
    | 0 => ({ b with power := max (new_power - MAX_POWER) 0,
                     power_up_count := b.power_up_count + 1 }, true)
    | 1 => ({ b with power := max (new_power - MAX_POWER) 0,
                     power_up_count := b.power_up_count + 1 }, true)
    | 2 => ({ b with power := 0, power_up_count := b.power_up_count + 1 }, true)
    | _ => (b, false)
  else
    if b.power_up_count < MAX_POWER_UPS then
      ({ b with power := new_power }, false)
    else
      (b, false)

/-- PowerUp kinds from src/power.rs. -/
inductive PowerUp where
  | RollAgain
  | DoubleDice
  | EvadeCapture
  | SelfJump
  | CaptureNearest
  | HomeRun
deriving DecidableEq, Repr

/-- PowerChange, referenced by src/resources.rs (its declaring file is not in
src/; the two variants are forced by the Some(PowerChange::Up) and
Some(PowerChange::Down) uses in update_power). -/
inductive PowerChange where
  | Up
  | Down
deriving DecidableEq, Repr

/-- PowerUpStatus from src/resources.rs. -/
structure PowerUpStatus where
  evade_capture_turns : Nat
  jump_self_turns : Nat
  capture_nearest : Bool
  home_run : Bool
deriving DecidableEq, Repr

/-- PlayerData from src/resources.rs (power and multiplier are f32, embedded
as rationals). -/
structure PlayerData where
  turn_move_count : Nat
  consecutive_empty_turns : Nat
  power : ℚ
  multiplier : ℚ
  power_ups : List PowerUp
  power_up_status : PowerUpStatus
deriving DecidableEq, Repr

/-- Rust f32 clamp(lo, hi). -/
def clampQ (x lo hi : ℚ) : ℚ := min (max x lo) hi

/-- PlayerData::update_power from src/resources.rs. The Rust guard
delta.is_sign_positive() is embedded as 0 ≤ delta. -/
def updatePower (pd : PlayerData) (delta : ℚ) : PlayerData × Option PowerChange :=
  if pd.power = MAX_POWER ∧ 0 ≤ delta then (pd, none)
  else
    let new_power := clampQ (pd.power + delta) 0 MAX_POWER
    if new_power ≥ 10 * pd.multiplier then
      ({ pd with multiplier := pd.multiplier + 1, power := new_power }, some PowerChange.Up)
    else if new_power < 10 * (pd.multiplier - 1) then
      ({ pd with multiplier := pd.multiplier - 1, power := new_power }, some PowerChange.Down)
    else
      ({ pd with power := new_power }, none)

/-- PlayerData::use_power_up from src/resources.rs: on a valid slot index it
first applies update_power(-10.0) (power ups cost 10 points) and then removes
and returns the power up at that index; otherwise it is a no-op returning
None. -/
def usePowerUp (pd : PlayerData) (index : Nat) : Option PowerUp × PlayerData :=
  if h : index < pd.power_ups.length then
    let pd2 := (updatePower pd (-10)).1
    (some (pd.power_ups.get ⟨index, h⟩),
     { pd2 with power_ups := pd2.power_ups.eraseIdx index })
  else
    (none, pd)

/-- Effect of the PowerEvent::Use arm of handle_power_events in src/power.rs on
the PowerBar of the player: the count is decremented and the power value is not
touched (the None power branch only runs bar.power_up_count -= 1). -/
def handlePowerUseOnBar (bar : PowerBar) : PowerBar :=
  { bar with power_up_count := bar.power_up_count - 1 }

/-- Distance computed by the PowerEvent::Index arm of handle_power_events in
src/power.rs; none embeds the unreachable! arm. -/
def indexEventDistance (index prev_index : Nat) : Option Nat :=
  if index = CENTER_INDEX then
    if prev_index = 54 then some 7
    else if prev_index ≤ 5 then some (5 - prev_index + 1)
    else if prev_index ≤ 17 then some (17 - prev_index + 1)
    else if prev_index ≤ 29 then some (29 - prev_index + 1)
    else none
  else
    some (if prev_index = 54 then index + 1
          else if prev_index = CENTER_INDEX then index + 1 - 41
          else index - prev_index)

/-- Points granted by the PowerEvent::Index arm of handle_power_events in
src/power.rs: (1.0 for index 0..=47, else 2.0) * 10.0 * distance / 48.0. -/
def indexEventPoints (index prev_index : Nat) : Option ℚ :=
  (indexEventDistance index prev_index).map
    (fun d => (if index ≤ 47 then (1 : ℚ) else 2) * 10 * (d : ℚ) / 48)

/-- One 90 degree clockwise rotation step of a board coordinate. -/
def rotateCW (c : Int × Int) : Int × Int := (c.2, -c.1)

/-- Number of clockwise rotation steps of each color frame (red, green, blue,
yellow occupy the corners clockwise, per the BOARD diagram in
src/constants.rs). -/
def rotationSteps (p : Player) : Nat :=
  match p with
  | Player.red => 0
  | Player.green => 1
  | Player.blue => 2
  | Player.yellow => 3

/-- Physical coordinate of a local track index in the frame of a player. -/
def physicalCoord (p : Player) (i : Nat) : Int × Int :=
  Nat.iterate rotateCW (rotationSteps p) (BOARD.getD i (0, 0))

/-- Modelled from the spec: Player::is_same_index lives in components.rs, which
is not in src/; per the spec each color owns a fixed 90-degree-step rotation of
the shared board, and two (player, index) pairs denote the same cell when their
physical coordinates agree. -/
def isSameIndex (p1 : Player) (i1 : Nat) (p2 : Player) (i2 : Nat) : Bool :=
  decide (physicalCoord p1 i1 = physicalCoord p2 i2)

/-- An opponent marble row as seen by check_for_capture in
src/system_sets/process_move.rs: the entity id, the Marble index, the Player,
and whether the marble currently carries the Evading marker component (present
in the entity but never read by check_for_capture). -/
structure OppMarble where
  entity : Nat
  index : Nat
  player : Player
  evading : Bool
deriving DecidableEq, Repr

/-- check_for_capture from src/system_sets/process_move.rs: given the current
player, the index of the just-moved marble and the list of opponent marbles, it
returns the entity of the captured marble (whose index is then set to BASE), or
none. Movers in the home row trigger the early return; opponents are kept only
when their index is below FIRST_HOME_INDEX or equals CENTER_INDEX. -/
def checkForCapture (p : Player) (cur : Nat) (opps : List OppMarble) : Option Nat :=
  if FIRST_HOME_INDEX ≤ cur ∧ cur ≤ LAST_HOME_INDEX then none
  else
    ((opps.filter (fun o => decide (o.index < FIRST_HOME_INDEX ∨ o.index = CENTER_INDEX))).find?
      (fun o => isSameIndex p cur o.player o.index)).map (fun o => o.entity)

/-- GameState from src/resources.rs. -/
inductive GameState where
  | MainMenu
  | GameStart
  | ChooseColor
  | NextPlayer
  | DiceRoll
  | TurnSetup
  | ComputerTurn
  | HumanTurn
  | WaitForAnimation
  | ProcessMove
  | EndTurn
  | GameEnd
deriving DecidableEq, Repr

/-- check_for_winner from src/system_sets/process_move.rs: given the indices of
the current player marbles, the two die sides (some when the die is still
unused) and the doubles flag, it returns the state set, or none for the
unreachable! arm (both dice still unused). -/
def checkForWinner (marbleIdxs : List Nat) (die1 die2 : Option Nat) (doubles : Bool) :
    Option GameState :=
  if marbleIdxs.any (fun i => decide (¬(FIRST_HOME_INDEX ≤ i ∧ i ≤ LAST_HOME_INDEX))) then
    match die1, die2 with
    | some _, none => some GameState.TurnSetup
    | none, some _ => some GameState.TurnSetup
    | none, none => if doubles then some GameState.DiceRoll else some GameState.NextPlayer
    | some _, some _ => none
  else
    some GameState.GameEnd

/-- WhichDie from src/resources.rs. -/
inductive WhichDie where
  | One
  | Two
  | Both
  | Neither
deriving DecidableEq, Repr

/-- Dice from src/resources.rs (u8 faces embedded as naturals). -/
structure Dice where
  one : Option Nat
  two : Option Nat
  doubles : Bool
  multiplier : Nat
deriving DecidableEq, Repr

/-- Rust inclusive range (a..=b).collect::<Vec<_>>() over usize. -/
def rangeIncl (a b : Nat) : List Nat := List.range' a (b + 1 - a)

/-- enter_center_path from src/turn_setup.rs: some path exactly when the end
index is one past a center entrance index; the path runs from the start index
through the entrance and then the center index. -/
def enterCenterPath (s e : Nat) : Option (List Nat) :=
  if (e - 1) ∈ CENTER_ENTRANCE_INDEXES then
    some (rangeIncl s (e - 1) ++ [CENTER_INDEX])
  else
    none

/-- Raw candidate (path, which-die) pairs produced by basic_rules in
src/turn_setup.rs before its filter, for one marble at the given index; none
embeds the unreachable! arm (both dice empty). The source collects these into a
BTreeSet; the elements here are pairwise distinct (the die tag differs), so a
list is an order-refinement of the same set. -/
def basicMovesRaw (dice : Dice) (idx : Nat) : Option (List (List Nat × WhichDie)) :=
  match dice.one, dice.two with
  | some d1, some d2 =>
      let l := [(rangeIncl (idx + 1) (idx + d1 * dice.multiplier), WhichDie.One),
                (rangeIncl (idx + 1) (idx + d2 * dice.multiplier), WhichDie.Two),
                (rangeIncl (idx + 1) (idx + (d1 + d2) * dice.multiplier), WhichDie.Both)]
      some (match enterCenterPath idx (idx + (d1 + d2) * dice.multiplier) with
            | some center_path => l ++ [(center_path, WhichDie.Both)]
            | none => l)
  | some d1, none => some [(rangeIncl (idx + 1) (idx + d1 * dice.multiplier), WhichDie.One)]
  | none, some d2 => some [(rangeIncl (idx + 1) (idx + d2 * dice.multiplier), WhichDie.Two)]
  | none, none => none

/-- The retain condition of the filter at the end of basic_rules in
src/turn_setup.rs: the destination must be a valid board space, or it is the
center space provided the marble was not at the end of the home row and the
path does not go through the home row. -/
def basicKeep (idx : Nat) (path : List Nat) : Prop :=
  path.getLastD 0 ≤ LAST_HOME_INDEX ∨
    (path.getLastD 0 = CENTER_INDEX ∧ idx ≠ LAST_HOME_INDEX ∧
      ¬ ∃ i ∈ path, FIRST_HOME_INDEX ≤ i ∧ i ≤ LAST_HOME_INDEX)

instance (idx : Nat) (path : List Nat) : Decidable (basicKeep idx path) := by
  unfold basicKeep; infer_instance

/-- basic_rules from src/turn_setup.rs: the raw candidates restricted to those
satisfying the retain condition. -/
def basicRules (dice : Dice) (idx : Nat) : Option (List (List Nat × WhichDie)) :=
  (basicMovesRaw dice idx).map (List.filter (fun c => decide (basicKeep idx c.1)))

/-- The per-candidate self-block filter closing calc_possible_moves in
src/turn_setup.rs: a candidate (entity, path, which) is dropped when another
marble of the current player sits on the landing index (when the self-jump
status is active, jump_self_turns > 0) or anywhere along the path (otherwise);
a kept candidate is projected to (entity, destination, which). Marbles are
(entity, index) pairs of the current player. -/
def selfBlockFilter (jump_self_turns : Nat) (marbles : List (Nat × Nat))
    (cand : Nat × List Nat × WhichDie) : Option (Nat × Nat × WhichDie) :=
  match (marbles.filter (fun m => decide (m.1 ≠ cand.1))).find?
      (fun m => if jump_self_turns > 0 then decide (m.2 = cand.2.1.getLastD 0)
                else cand.2.1.contains m.2) with
  | some _ => none
  | none => some (cand.1, cand.2.1.getLastD 0, cand.2.2)

/-- The final filtering pass of calc_possible_moves in src/turn_setup.rs over
the enumerated candidate set. -/
def calcPossibleMovesFilter (jump_self_turns : Nat) (marbles : List (Nat × Nat))
    (cands : List (Nat × List Nat × WhichDie)) : List (Nat × Nat × WhichDie) :=
  cands.filterMap (selfBlockFilter jump_self_turns marbles)

/-- C1: for PowerBar::update(delta) with power in [0, 10], writing new_power
for max(power + delta, 0): if new_power reaches MAX_POWER then with
power_up_count 0 or 1 the power becomes the carried overflow
max(new_power - 10, 0), the count increments and the call returns true; with
count exactly 2 the power resets to 0, the count becomes 3 and the call
returns true; with count 3 or more the power is unchanged and the call
returns false; below MAX_POWER the call returns false and power becomes
new_power exactly when the count is below 3. -/
theorem powerBar_update_matches_spec (b : PowerBar) (delta : ℚ)
    (h0 : 0 ≤ b.power) (h10 : b.power ≤ 10) :
    (MAX_POWER ≤ max (b.power + delta) 0 →
      ((b.power_up_count = 0 ∨ b.power_up_count = 1) →
        (powerBarUpdate b delta).1.power = max (max (b.power + delta) 0 - MAX_POWER) 0 ∧
        (powerBarUpdate b delta).1.power_up_count = b.power_up_count + 1 ∧
        (powerBarUpdate b delta).2 = true) ∧
      (b.power_up_count = 2 →
        (powerBarUpdate b delta).1.power = 0 ∧
        (powerBarUpdate b delta).1.power_up_count = 3 ∧
        (powerBarUpdate b delta).2 = true) ∧
      (3 ≤ b.power_up_count →
        (powerBarUpdate b delta).1.power = b.power ∧
        (powerBarUpdate b delta).2 = false)) ∧
    (max (b.power + delta) 0 < MAX_POWER →
      (powerBarUpdate b delta).2 = false ∧
      (b.power_up_count < 3 → (powerBarUpdate b delta).1.power = max (b.power + delta) 0) ∧
      (3 ≤ b.power_up_count → (powerBarUpdate b delta).1.power = b.power)) := by
  rcases b with ⟨p, c, o⟩
  constructor
  · intro hge
    have hge10 : max (p + delta) 0 ≥ (10:ℚ) := by simpa [MAX_POWER] using hge
    refine ⟨?_, ?_, ?_⟩
    · rintro (rfl | rfl) <;>
        · simp only [powerBarUpdate, MAX_POWER]
          rw [if_pos hge10]
          simp
    · rintro rfl
      simp only [powerBarUpdate, MAX_POWER]
      rw [if_pos hge10]
      simp
    · intro h3
      simp only at h3
      rcases c with _ | _ | _ | c
      · omega
      · omega
      · omega
      · simp only [powerBarUpdate, MAX_POWER]
        rw [if_pos hge10]
        simp
  · intro hlt
    have hnot : ¬ (max (p + delta) 0 ≥ (10:ℚ)) := by
      simpa [MAX_POWER] using not_le.mpr hlt
    refine ⟨?_, ?_, ?_⟩
    · simp only [powerBarUpdate, MAX_POWER, MAX_POWER_UPS]
      rw [if_neg hnot]
      split <;> simp
    · intro hc
      simp only at hc
      simp only [powerBarUpdate, MAX_POWER, MAX_POWER_UPS]
      rw [if_neg hnot, if_pos hc]
    · intro h3
      simp only at h3
      simp only [powerBarUpdate, MAX_POWER, MAX_POWER_UPS]
      rw [if_neg hnot, if_neg (by omega : ¬ c < 3)]

/-- Witness for C1: an empty bar with no power-ups updated by +11 carries 1
point over, holds one power-up and reports the award. -/
theorem powerBar_update_matches_spec_witness :
    (powerBarUpdate ⟨0, 0, 0⟩ 11).1.power = 1 ∧
    (powerBarUpdate ⟨0, 0, 0⟩ 11).1.power_up_count = 1 ∧
    (powerBarUpdate ⟨0, 0, 0⟩ 11).2 = true := by
  have h := ((powerBar_update_matches_spec ⟨0, 0, 0⟩ 11 (by norm_num) (by norm_num)).1
    (by norm_num [MAX_POWER])).1 (Or.inl rfl)
  refine ⟨?_, h.2.1, h.2.2⟩
  rw [h.1]
  norm_num [MAX_POWER]

/-- C10: PowerBar::update started from a nonnegative power never leaves the
power negative, never decreases the power-up count, increases it by at most
one, and returns true exactly when it incremented the count. -/
theorem powerBar_update_invariants (b : PowerBar) (delta : ℚ) (h0 : 0 ≤ b.power) :
    0 ≤ (powerBarUpdate b delta).1.power ∧
    b.power_up_count ≤ (powerBarUpdate b delta).1.power_up_count ∧
    (powerBarUpdate b delta).1.power_up_count ≤ b.power_up_count + 1 ∧
    ((powerBarUpdate b delta).2 = true ↔
      (powerBarUpdate b delta).1.power_up_count = b.power_up_count + 1) := by
  rcases b with ⟨p, c, o⟩
  simp only [powerBarUpdate, MAX_POWER, MAX_POWER_UPS]
  split
  · rcases c with _ | _ | _ | c <;> simp <;> positivity
  · split <;> simp_all

/-- Witness for C10: a bar at 4 points with two power-ups updated by +7
crosses the cap, so the count reaches 3 and the call reports it. -/
theorem powerBar_update_invariants_witness :
    0 ≤ (powerBarUpdate ⟨4, 2, 0⟩ 7).1.power ∧
    2 ≤ (powerBarUpdate ⟨4, 2, 0⟩ 7).1.power_up_count ∧
    (powerBarUpdate ⟨4, 2, 0⟩ 7).1.power_up_count ≤ 3 ∧
    ((powerBarUpdate ⟨4, 2, 0⟩ 7).2 = true ↔
      (powerBarUpdate ⟨4, 2, 0⟩ 7).1.power_up_count = 3) :=
  powerBar_update_invariants ⟨4, 2, 0⟩ 7 (by norm_num)

/-- C9: PlayerData::use_power_up on an index at or past the number of held
power-ups returns None and leaves the PlayerData completely unchanged. -/
theorem use_power_up_empty_slot_noop (pd : PlayerData) (index : Nat)
    (h : pd.power_ups.length ≤ index) :
    usePowerUp pd index = (none, pd) := by
  simp only [usePowerUp]
  rw [dif_neg (by omega)]

/-- Witness for C9: choosing slot 3 of a player holding a single power-up is
a no-op. -/
theorem use_power_up_empty_slot_noop_witness :
    usePowerUp ⟨0, 0, 5, 1, [PowerUp.RollAgain], ⟨0, 0, false, false⟩⟩ 3 =
      (none, ⟨0, 0, 5, 1, [PowerUp.RollAgain], ⟨0, 0, false, false⟩⟩) :=
  use_power_up_empty_slot_noop _ 3 (by simp)

/-- Counterexample for C2: the claim says using a power-up leaves the power
value unchanged, yet use_power_up on a player with 5 power points and one held
power-up drops the power from 5 to 0 (update_power(-10.0) is applied because
power ups cost 10 points). -/
theorem use_power_up_changes_power :
    (usePowerUp ⟨0, 0, 5, 1, [PowerUp.RollAgain], ⟨0, 0, false, false⟩⟩ 0).2.power = 0 ∧
    (0 : ℚ) ≠ 5 := by
  constructor
  · norm_num [usePowerUp, updatePower, clampQ, MAX_POWER]
  · norm_num

/-- C2 amended: using a power-up in an occupied slot removes exactly one held
power-up (returning the one at the chosen index) and deducts 10 points from
the power value, clamped to [0, MAX_POWER]; the timed and one-shot statuses
are untouched, and the PowerEvent::Use arm of handle_power_events decrements
the PowerBar count while leaving the bar power unchanged. -/
theorem use_power_up_effect (pd : PlayerData) (index : Nat)
    (h : index < pd.power_ups.length) :
    (usePowerUp pd index).1 = some (pd.power_ups.get ⟨index, h⟩) ∧
    (usePowerUp pd index).2.power_ups.length + 1 = pd.power_ups.length ∧
    (usePowerUp pd index).2.power = clampQ (pd.power - 10) 0 MAX_POWER ∧
    (usePowerUp pd index).2.power_up_status = pd.power_up_status ∧
    ∀ bar : PowerBar,
      (handlePowerUseOnBar bar).power = bar.power ∧
      (handlePowerUseOnBar bar).power_up_count = bar.power_up_count - 1 := by
  have hne : ¬ (pd.power = MAX_POWER ∧ (0:ℚ) ≤ -10) := by
    rintro ⟨-, h10⟩
    norm_num at h10
  simp only [usePowerUp, updatePower, dif_pos h, if_neg hne]
  refine ⟨?_, ?_, ?_, ?_, fun bar => ⟨rfl, rfl⟩⟩
  · trivial
  · split_ifs <;> exact List.length_eraseIdx_add_one h
  · split_ifs <;> simp [clampQ, sub_eq_add_neg]
  · split_ifs <;> rfl

/-- Witness for the amended C2: using the only held power-up returns it and
empties the slot list. -/
theorem use_power_up_effect_witness :
    (usePowerUp ⟨0, 0, 5, 1, [PowerUp.RollAgain], ⟨0, 0, false, false⟩⟩ 0).1 =
      some PowerUp.RollAgain ∧
    (usePowerUp ⟨0, 0, 5, 1, [PowerUp.RollAgain], ⟨0, 0, false, false⟩⟩ 0).2.power_ups.length
      + 1 = 1 := by
  have h := use_power_up_effect ⟨0, 0, 5, 1, [PowerUp.RollAgain], ⟨0, 0, false, false⟩⟩ 0
    (by simp)
  exact ⟨h.1, h.2.1⟩

/-- Nearest center entrance index at or after a ring index, following the
wording of the claim about point accrual, meaningful for prev indices up
to 29. -/
def centerEntranceAfter (p : Nat) : Nat :=
  if p ≤ 5 then 5 else if p ≤ 17 then 17 else 29

/-- C7 amended: the PowerEvent::Index arm awards base_rate * 10 * distance / 48
points with base_rate 1 for destinations 0..=47 and 2 for 48..=53; from base
(prev 54) the distance to a non-center destination is index + 1; from a CENTER
start (prev 53) the distance is index + 1 - 41, counting from just before the
center exit at index 41 (not from index 53 as the claim words it); a move
ending at CENTER measures distance as the nearest center entrance at or after
prev, minus prev, plus 1, and base to CENTER is 7. -/
theorem index_event_points_spec :
    (∀ i : Nat, i ≤ 52 →
      indexEventPoints i 54 =
        some ((if i ≤ 47 then (1:ℚ) else 2) * 10 * ((i : ℚ) + 1) / 48)) ∧
    (∀ i : Nat, 41 ≤ i → i ≤ 52 →
      indexEventPoints i 53 =
        some ((if i ≤ 47 then (1:ℚ) else 2) * 10 * ((i + 1 - 41 : ℕ) : ℚ) / 48)) ∧
    (∀ p : Nat, p ≤ 29 →
      indexEventPoints 53 p =
        some (2 * 10 * ((centerEntranceAfter p - p + 1 : ℕ) : ℚ) / 48)) ∧
    indexEventPoints 53 54 = some (2 * 10 * 7 / 48) := by
  refine ⟨?_, ?_, ?_, ?_⟩
  · intro i hi
    simp only [indexEventPoints, indexEventDistance, CENTER_INDEX]
    rw [if_neg (by omega : ¬ i = 53)]
    simp
  · intro i h41 h52
    simp only [indexEventPoints, indexEventDistance, CENTER_INDEX]
    rw [if_neg (by omega : ¬ i = 53), if_neg (by omega : ¬ (53:ℕ) = 54)]
    simp
  · intro p hp
    simp only [indexEventPoints, indexEventDistance, CENTER_INDEX, centerEntranceAfter,
      if_true, eq_self_iff_true]
    rw [if_neg (by omega : ¬ p = 54)]
    by_cases h5 : p ≤ 5
    · rw [if_pos h5, if_pos h5]
      simp
    · rw [if_neg h5, if_neg h5]
      by_cases h17 : p ≤ 17
      · rw [if_pos h17, if_pos h17]
        simp
      · rw [if_neg h17, if_neg h17, if_pos (by omega : p ≤ 29)]
        simp
  · norm_num [indexEventPoints, indexEventDistance, CENTER_INDEX]

/-- Witness for the amended C7: a base exit landing on index 5 awards
1 * 10 * 6 / 48 = 5/4 points. -/
theorem index_event_points_spec_witness :
    indexEventPoints 5 54 = some (5 / 4) := by
  have h := index_event_points_spec.1 5 (by omega)
  rw [h]
  norm_num

/-- Definition following the words of the claim, for comparison with the
source computation: with a CENTER start treated as index 53, the points for a
destination index would be base_rate * 10 * (index - 53) / 48. -/
def claimCenterStartPoints (index : Nat) : ℚ :=
  (if index ≤ 47 then (1:ℚ) else 2) * 10 * ((index : ℚ) - 53) / 48

/-- Counterexample for C7: for the center exit move (destination 41, prev 53)
the source awards 10/48 points (distance index + 1 - 41 = 1), not the negative
amount the claim formula (distance index - 53) would give. -/
theorem index_event_points_center_start_counterexample :
    indexEventPoints 41 53 = some (10 / 48) ∧
    claimCenterStartPoints 41 = -(120 / 48) ∧
    ((10 / 48 : ℚ) ≠ -(120 / 48)) := by
  refine ⟨?_, ?_, by norm_num⟩
  · norm_num [indexEventPoints, indexEventDistance, CENTER_INDEX]
  · norm_num [claimCenterStartPoints]

/-- C8: check_for_winner moves to GameEnd exactly when every marble of the
acting player is in the home row 48..=52; otherwise it moves to TurnSetup when
exactly one die remains unused, to DiceRoll when both dice are used and the
roll was doubles, and to NextPlayer when both dice are used and the roll was
not doubles (the both-dice-unused case is the unreachable! arm, embedded as
none). -/
theorem check_for_winner_transitions (ms : List Nat) (d1 d2 : Option Nat) (dbl : Bool) :
    (checkForWinner ms d1 d2 dbl = some GameState.GameEnd ↔
      ∀ i ∈ ms, FIRST_HOME_INDEX ≤ i ∧ i ≤ LAST_HOME_INDEX) ∧
    ((∃ i ∈ ms, ¬ (FIRST_HOME_INDEX ≤ i ∧ i ≤ LAST_HOME_INDEX)) →
      ((d1.isSome ∧ d2 = none) ∨ (d1 = none ∧ d2.isSome) →
        checkForWinner ms d1 d2 dbl = some GameState.TurnSetup) ∧
      (d1 = none → d2 = none → dbl = true →
        checkForWinner ms d1 d2 dbl = some GameState.DiceRoll) ∧
      (d1 = none → d2 = none → dbl = false →
        checkForWinner ms d1 d2 dbl = some GameState.NextPlayer)) := by
  by_cases h : ms.any (fun i => decide (¬ (FIRST_HOME_INDEX ≤ i ∧ i ≤ LAST_HOME_INDEX))) = true
  · obtain ⟨i, hi, hni⟩ : ∃ i, i ∈ ms ∧
        decide (¬ (FIRST_HOME_INDEX ≤ i ∧ i ≤ LAST_HOME_INDEX)) = true :=
      List.any_eq_true.mp h
    have hni : ¬ (FIRST_HOME_INDEX ≤ i ∧ i ≤ LAST_HOME_INDEX) := of_decide_eq_true hni
    have hres : checkForWinner ms d1 d2 dbl =
        (match d1, d2 with
         | some _, none => some GameState.TurnSetup
         | none, some _ => some GameState.TurnSetup
         | none, none =>
             if dbl then some GameState.DiceRoll else some GameState.NextPlayer
         | some _, some _ => none) := by
      simp only [checkForWinner]
      rw [if_pos h]
    constructor
    · rw [hres]
      constructor
      · intro he
        exfalso
        rcases d1 with _ | v <;> rcases d2 with _ | w
        · rcases dbl <;> simp at he
        · simp at he
        · simp at he
        · simp at he
      · intro hall
        exact absurd (hall i hi) hni
    · intro _
      refine ⟨?_, ?_, ?_⟩
      · rintro (⟨hv, rfl⟩ | ⟨rfl, hw⟩)
        · obtain ⟨v, rfl⟩ := Option.isSome_iff_exists.mp hv
          rw [hres]
        · obtain ⟨w, rfl⟩ := Option.isSome_iff_exists.mp hw
          rw [hres]
      · rintro rfl rfl rfl
        rw [hres]
        simp
      · rintro rfl rfl rfl
        rw [hres]
        simp
  · have hall : ∀ i ∈ ms, FIRST_HOME_INDEX ≤ i ∧ i ≤ LAST_HOME_INDEX := by
      intro i hi
      by_contra hni
      exact h (List.any_eq_true.mpr ⟨i, hi, decide_eq_true hni⟩)
    have hres : checkForWinner ms d1 d2 dbl = some GameState.GameEnd := by
      simp only [checkForWinner]
      rw [if_neg h]
    constructor
    · rw [hres]
      exact ⟨fun _ => hall, fun _ => rfl⟩
    · rintro ⟨i, hi, hni⟩
      exact absurd (hall i hi) hni

/-- Witness for C8: a marble still on the ring with one die left sends the
game back to TurnSetup. -/
theorem check_for_winner_transitions_witness :
    checkForWinner [0, 48] (some 3) none false = some GameState.TurnSetup :=
  ((check_for_winner_transitions [0, 48] (some 3) none false).2
    ⟨0, by simp, by decide⟩).1 (Or.inl ⟨rfl, rfl⟩)

/-- Counterexample for C3: a mover standing at the center cell does evict an
opponent marble standing at the center cell, because the early return of
check_for_capture covers only indices 48..=52 and the opponent filter
explicitly admits index 53. -/
theorem check_for_capture_center_capture :
    checkForCapture Player.red CENTER_INDEX [⟨0, CENTER_INDEX, Player.green, false⟩] =
      some 0 := by
  decide

/-- C3 amended: a mover inside its home row never evicts anyone, and every
capture victim of check_for_capture has an index below the home row or equal
to the center index; marbles in their own home row or at base are never
selected, but the center cell can host a capture. -/
theorem check_for_capture_scan_bounds (p : Player) (cur : Nat) (opps : List OppMarble) :
    (FIRST_HOME_INDEX ≤ cur → cur ≤ LAST_HOME_INDEX → checkForCapture p cur opps = none) ∧
    (∀ e, checkForCapture p cur opps = some e →
      ∃ o ∈ opps, o.entity = e ∧ (o.index < FIRST_HOME_INDEX ∨ o.index = CENTER_INDEX)) := by
  constructor
  · intro h1 h2
    simp only [checkForCapture]
    rw [if_pos ⟨h1, h2⟩]
  · intro e he
    simp only [checkForCapture] at he
    by_cases hc : FIRST_HOME_INDEX ≤ cur ∧ cur ≤ LAST_HOME_INDEX
    · rw [if_pos hc] at he
      exact absurd he (by simp)
    · rw [if_neg hc] at he
      rw [Option.map_eq_some'] at he
      obtain ⟨o, hfind, heq⟩ := he
      have hmem := List.mem_of_find?_eq_some hfind
      have hmf := List.mem_filter.mp hmem
      exact ⟨o, hmf.1, heq, of_decide_eq_true hmf.2⟩

/-- Witness for the amended C3: a mover parked at home index 50 captures
nobody. -/
theorem check_for_capture_scan_bounds_witness :
    checkForCapture Player.red 50 [⟨7, 12, Player.yellow, false⟩] = none :=
  (check_for_capture_scan_bounds Player.red 50 [⟨7, 12, Player.yellow, false⟩]).1
    (by decide) (by decide)

/-- C4 failing input: a yellow marble at local index 12 shares the physical
cell (-6, 1) with the red mover at local index 0; although it carries the
Evading marker, check_for_capture still selects it, because the opponent query
never filters on Evading. -/
theorem check_for_capture_captures_evading :
    (⟨7, 12, Player.yellow, true⟩ : OppMarble).evading = true ∧
    checkForCapture Player.red 0 [⟨7, 12, Player.yellow, true⟩] = some 7 := by
  exact ⟨rfl, by decide⟩

/-- C5: with a nonempty candidate path, the self-block filter of
calc_possible_moves drops the candidate exactly when another marble of the
acting player blocks it: when the self-jump status is inactive (zero turns)
the block is any same-player marble on any path index, and when it is active
the block is a same-player marble on the final destination only; otherwise
the candidate survives, projected to its destination. -/
theorem self_block_filter_spec (jump : Nat) (marbles : List (Nat × Nat))
    (entity : Nat) (path : List Nat) (which : WhichDie) (_h : path ≠ []) :
    (selfBlockFilter jump marbles (entity, path, which) = none ↔
      ∃ m ∈ marbles, m.1 ≠ entity ∧
        (if 0 < jump then m.2 = path.getLastD 0 else m.2 ∈ path)) ∧
    (selfBlockFilter jump marbles (entity, path, which) =
        some (entity, path.getLastD 0, which) ↔
      ¬ ∃ m ∈ marbles, m.1 ≠ entity ∧
        (if 0 < jump then m.2 = path.getLastD 0 else m.2 ∈ path)) := by
  have hpred : ∀ m : Nat × Nat,
      ((if 0 < jump then decide (m.2 = path.getLastD 0) else path.contains m.2) = true) ↔
      (if 0 < jump then m.2 = path.getLastD 0 else m.2 ∈ path) := by
    intro m
    by_cases hj : 0 < jump
    · simp [hj]
    · simp [hj, List.contains_iff_exists_mem_beq, beq_iff_eq]
  cases hf : (marbles.filter (fun m => decide (m.1 ≠ entity))).find?
      (fun m => if 0 < jump then decide (m.2 = path.getLastD 0) else path.contains m.2) with
  | none =>
    have hval : selfBlockFilter jump marbles (entity, path, which) =
        some (entity, path.getLastD 0, which) := by
      simp only [selfBlockFilter]
      rw [hf]
    have hnoP : ¬ ∃ m ∈ marbles, m.1 ≠ entity ∧
        (if 0 < jump then m.2 = path.getLastD 0 else m.2 ∈ path) := by
      rintro ⟨m, hm, hne, hcond⟩
      rw [List.find?_eq_none] at hf
      exact hf m (List.mem_filter.mpr ⟨hm, decide_eq_true hne⟩) ((hpred m).mpr hcond)
    rw [hval]
    exact ⟨⟨fun hc => absurd hc (by simp), fun hPP => absurd hPP hnoP⟩,
           ⟨fun _ => hnoP, fun _ => rfl⟩⟩
  | some m =>
    have hval : selfBlockFilter jump marbles (entity, path, which) = none := by
      simp only [selfBlockFilter]
      rw [hf]
    have hP : ∃ m ∈ marbles, m.1 ≠ entity ∧
        (if 0 < jump then m.2 = path.getLastD 0 else m.2 ∈ path) := by
      have hmem := List.mem_of_find?_eq_some hf
      have hmf := List.mem_filter.mp hmem
      have hpm := List.find?_some hf
      exact ⟨m, hmf.1, of_decide_eq_true hmf.2, (hpred m).mp hpm⟩
    rw [hval]
    exact ⟨⟨fun _ => hP, fun _ => rfl⟩,
           ⟨fun hc => absurd hc (by simp), fun hnP => absurd hP hnP⟩⟩

/-- Witness for C5: with the self-jump status inactive, a second marble of the
same player sitting mid-path blocks the move. -/
theorem self_block_filter_spec_witness :
    selfBlockFilter 0 [(1, 3)] (0, [2, 3, 4], WhichDie.One) = none :=
  (self_block_filter_spec 0 [(1, 3)] 0 [2, 3, 4] WhichDie.One (by simp)).1.mpr
    ⟨(1, 3), by simp, by simp, by simp⟩

/-- C6: the destination filter of basic_rules rejects every raw candidate
whose destination exceeds LAST_HOME_INDEX without being exactly CENTER_INDEX,
and rejects a candidate ending at CENTER_INDEX when the marble starts at
LAST_HOME_INDEX or its path crosses the home row; in particular dice faces
(4, 1) for a marble at index 52 produce zero legal moves. -/
theorem basic_rules_destination_filter :
    (∀ (dice : Dice) (idx : Nat) (l : List (List Nat × WhichDie)) (c : List Nat × WhichDie),
      basicMovesRaw dice idx = some l → c ∈ l →
      ((LAST_HOME_INDEX < c.1.getLastD 0 ∧ c.1.getLastD 0 ≠ CENTER_INDEX →
         ∀ l2, basicRules dice idx = some l2 → c ∉ l2) ∧
       (c.1.getLastD 0 = CENTER_INDEX ∧
          (idx = LAST_HOME_INDEX ∨ ∃ i ∈ c.1, FIRST_HOME_INDEX ≤ i ∧ i ≤ LAST_HOME_INDEX) →
         ∀ l2, basicRules dice idx = some l2 → c ∉ l2))) ∧
    basicRules ⟨some 4, some 1, false, 1⟩ 52 = some [] := by
  constructor
  · intro dice idx l c hraw hc
    have hrules : basicRules dice idx =
        some (l.filter (fun c => decide (basicKeep idx c.1))) := by
      simp only [basicRules, hraw, Option.map_some']
    constructor
    · rintro ⟨hgt, hne⟩ l2 hl2
      rw [hrules] at hl2
      injection hl2 with hl2
      subst hl2
      intro hmem
      have hk := of_decide_eq_true (List.mem_filter.mp hmem).2
      rcases hk with hk | ⟨hk, -, -⟩
      · simp only [LAST_HOME_INDEX] at hgt hk
        omega
      · exact hne hk
    · rintro ⟨hdest, hbad⟩ l2 hl2
      rw [hrules] at hl2
      injection hl2 with hl2
      subst hl2
      intro hmem
      have hk := of_decide_eq_true (List.mem_filter.mp hmem).2
      rcases hk with hk | ⟨-, hne52, hnoh⟩
      · rw [hdest] at hk
        simp only [CENTER_INDEX, LAST_HOME_INDEX] at hk
        omega
      · rcases hbad with h52 | hex
        · exact hne52 h52
        · exact hnoh hex
  · decide

/-- Witness for C6: the single-die candidate from index 52 with face 4 ends at
56, past the board, so it is absent from the filtered move list. -/
theorem basic_rules_destination_filter_witness :
    (([53, 54, 55, 56], WhichDie.One) : List Nat × WhichDie) ∉
      ([] : List (List Nat × WhichDie)) :=
  (basic_rules_destination_filter.1 ⟨some 4, some 1, false, 1⟩ 52
    [([53, 54, 55, 56], WhichDie.One), ([53], WhichDie.Two),
     ([53, 54, 55, 56, 57], WhichDie.Both)]
    ([53, 54, 55, 56], WhichDie.One) (by decide) (by decide)).1 (by decide) []
    basic_rules_destination_filter.2

end Aggravation
